import Mathlib

/-!
Verification of the eBPF redirect policy in `src/ebpf/redirect.c`
(gke-metadata-server).  The single program `redirect_connect4` is shallowly
embedded as a pure Lean function: the mutable `bpf_sock_addr` context and the
`map_config` array entry are passed in and returned explicitly, and the
`bpf_printk` diagnostics are collected as a list of log events.  Machine
integers (`__u32`, `__u16`) are modelled as `Nat` with explicit truncation
modulo `2^32` / `2^16` where the C code performs a narrowing conversion.
-/

namespace GkeMeta

/-- The IPv4 address family `AF_INET` (redirect.c line 12). -/
def AF_INET : Nat := 2

/-- The TCP protocol number `IPPROTO_TCP` checked at redirect.c line 33. -/
def IPPROTO_TCP : Nat := 6

/-- The GKE metadata server IP 169.254.169.254, i.e. 0xA9FEA9FE. -/
def METADATA_IP : Nat := 0xA9FEA9FE

/-- Port 80, the metadata server port. -/
def METADATA_PORT : Nat := 80

/-- The self-discovery IP 169.254.196.245, i.e. 0xA9FEC4F5. -/
def DISCOVERY_IP : Nat := 0xA9FEC4F5

/-- Port 12345, the self-discovery port. -/
def DISCOVERY_PORT : Nat := 12345

/-- Model of `bpf_ntohs` / `bpf_htons` on a little-endian host: byte swap of a 16-bit
value.  The argument is truncated to 16 bits first, as the C `__u16`
parameter type does. -/
def bswap16 (x : Nat) : Nat :=
  (x % 65536) % 256 * 256 + (x % 65536) / 256

/-- Model of `bpf_ntohl` / `bpf_htonl` on a little-endian host: byte swap of a 32-bit
value.  The argument is truncated to 32 bits first, as the C `__u32`
parameter type does. -/
def bswap32 (x : Nat) : Nat :=
  (x % 4294967296) % 256 * 16777216 +
    (x % 4294967296) / 256 % 256 * 65536 +
    (x % 4294967296) / 65536 % 256 * 256 +
    (x % 4294967296) / 16777216

/-- Model of `struct Config` (redirect.c lines 14-19): the single entry of the
`map_config` array map.  All fields are unsigned machine integers
(`__u32 emulator_pid`, `__u32 emulator_ip`, `__u16 emulator_port`,
`__u16 debug`), modelled as `Nat`. -/
structure Config where
  emulator_pid : Nat
  emulator_ip : Nat
  emulator_port : Nat
  debug : Nat
deriving DecidableEq, Repr

/-- The fields of `struct bpf_sock_addr` read and written by the program:
address family, protocol, and the destination IP/port in network byte
order (`user_ip4`, `user_port`). -/
structure BpfSockAddr where
  user_family : Nat
  protocol : Nat
  user_ip4 : Nat
  user_port : Nat
deriving DecidableEq, Repr

/-- The `bpf_printk` diagnostics of `redirect_connect4`, one constructor per
call site, in source order. -/
inductive LogEvent where
  | errNoConfig
  | discoveredPid (pid : Nat)
  | errBeforeDiscovery
  | notRedirectingEmulator (pid : Nat)
  | redirecting (ip : Nat) (port : Nat)
deriving DecidableEq, Repr

/-- The observable outcome of one invocation of `redirect_connect4`: the C
return value (1 = allow the connect attempt, 0 = block it), the possibly
rewritten socket-address context, the possibly updated map entry, and the
emitted diagnostics. -/
structure Result where
  retval : Nat
  ctx : BpfSockAddr
  conf : Option Config
  log : List LogEvent
deriving DecidableEq, Repr

/-- Model of `const __u32 dst = bpf_ntohl(ctx->user_ip4)` (redirect.c line 37): the
destination IP of an attempt, normalized to host byte order. -/
def dst (ctx : BpfSockAddr) : Nat := bswap32 ctx.user_ip4

/-- Model of `const __u32 dst_port = bpf_ntohs(ctx->user_port)` (redirect.c line 38):
the destination port of an attempt, normalized to host byte order. -/
def dst_port (ctx : BpfSockAddr) : Nat := bswap16 ctx.user_port

/-- Shallow embedding of `redirect_connect4` (redirect.c lines 31-92).
`conf0` is the `map_config` entry at key 0 (`none` when
`bpf_map_lookup_elem` returns NULL), `pid` is the upper half of
`bpf_get_current_pid_tgid()`, and `ctx` is the socket-address context. -/
def redirect_connect4 (conf0 : Option Config) (pid : Nat) (ctx : BpfSockAddr) :
    Result :=
  if ctx.user_family ≠ AF_INET ∨ ctx.protocol ≠ IPPROTO_TCP then
    ⟨1, ctx, conf0, []⟩
  else
    if ¬(dst ctx = METADATA_IP ∧ dst_port ctx = METADATA_PORT) ∧
        ¬(dst ctx = DISCOVERY_IP ∧ dst_port ctx = DISCOVERY_PORT) then
      ⟨1, ctx, conf0, []⟩
    else
      match conf0 with
      | none => ⟨1, ctx, none, [.errNoConfig]⟩
      | some conf =>
        if conf.emulator_pid = 0 then
          if dst ctx = DISCOVERY_IP ∧ dst_port ctx = DISCOVERY_PORT then
            ⟨0, ctx,
              some ⟨pid, conf.emulator_ip, conf.emulator_port, conf.debug⟩,
              if conf.debug ≠ 0 then [.discoveredPid pid] else []⟩
          else
            ⟨1, ctx, some conf, [.errBeforeDiscovery]⟩
        else if pid = conf.emulator_pid then
          ⟨1, ctx, some conf,
            if conf.debug ≠ 0 then [.notRedirectingEmulator pid] else []⟩
        else
          ⟨1,
            ⟨ctx.user_family, ctx.protocol,
              bswap32 conf.emulator_ip, bswap16 conf.emulator_port⟩,
            some conf,
            if conf.debug ≠ 0 then
              [.redirecting conf.emulator_ip conf.emulator_port]
            else []⟩

/-- The map state reached by folding a sequence of invocations, each given by
the caller's PID and the socket-address context. -/
def runPids (conf0 : Option Config) (calls : List (Nat × BpfSockAddr)) :
    Option Config :=
  calls.foldl (fun c pc => (redirect_connect4 c pc.1 pc.2).conf) conf0

theorem bswap16_bswap16 (x : Nat) : bswap16 (bswap16 x) = x % 65536 := by
  unfold bswap16
  have h1 : (x % 65536 % 256 * 256 + x % 65536 / 256) % 65536
      = x % 65536 % 256 * 256 + x % 65536 / 256 := by
    apply Nat.mod_eq_of_lt
    omega
  rw [h1]
  omega

theorem bswap32_bytes (b0 b1 b2 b3 : Nat) (h0 : b0 < 256) (h1 : b1 < 256)
    (h2 : b2 < 256) (h3 : b3 < 256) :
    bswap32 (b0 * 16777216 + b1 * 65536 + b2 * 256 + b3)
      = b3 * 16777216 + b2 * 65536 + b1 * 256 + b0 := by
  unfold bswap32
  have hzlt : b0 * 16777216 + b1 * 65536 + b2 * 256 + b3 < 4294967296 := by
    omega
  rw [Nat.mod_eq_of_lt hzlt]
  have d1 : (b0 * 16777216 + b1 * 65536 + b2 * 256 + b3) / 65536
      = (b0 * 16777216 + b1 * 65536 + b2 * 256 + b3) / 256 / 256 := by
    rw [Nat.div_div_eq_div_mul]
  have d2 : (b0 * 16777216 + b1 * 65536 + b2 * 256 + b3) / 16777216
      = (b0 * 16777216 + b1 * 65536 + b2 * 256 + b3) / 65536 / 256 := by
    rw [Nat.div_div_eq_div_mul]
  omega

theorem bswap32_bswap32 (x : Nat) : bswap32 (bswap32 x) = x % 4294967296 := by
  have hlt : x % 4294967296 < 4294967296 := by omega
  have d1 : x % 4294967296 / 65536 = x % 4294967296 / 256 / 256 := by
    rw [Nat.div_div_eq_div_mul]
  have d2 : x % 4294967296 / 16777216 = x % 4294967296 / 65536 / 256 := by
    rw [Nat.div_div_eq_div_mul]
  have hswap : bswap32 x = x % 4294967296 % 256 * 16777216 +
      x % 4294967296 / 256 % 256 * 65536 +
      x % 4294967296 / 65536 % 256 * 256 + x % 4294967296 / 16777216 := rfl
  rw [hswap, bswap32_bytes (x % 4294967296 % 256) (x % 4294967296 / 256 % 256)
    (x % 4294967296 / 65536 % 256) (x % 4294967296 / 16777216)
    (by omega) (by omega) (by omega) (by omega)]
  omega

theorem bswap16_inv (x : Nat) (h : x < 65536) : bswap16 (bswap16 x) = x := by
  rw [bswap16_bswap16, Nat.mod_eq_of_lt h]

theorem bswap32_inv (x : Nat) (h : x < 4294967296) : bswap32 (bswap32 x) = x := by
  rw [bswap32_bswap32, Nat.mod_eq_of_lt h]

/-- The full effect of the redirect branch (redirect.c lines 84-91): return 1
with the destination fields rewritten to the emulator's address, the map
entry untouched. -/
theorem redirect_branch_eq (c : Config) (pid : Nat) (ctx : BpfSockAddr)
    (hfam : ctx.user_family = AF_INET) (hproto : ctx.protocol = IPPROTO_TCP)
    (hdst : (dst ctx = METADATA_IP ∧ dst_port ctx = METADATA_PORT) ∨
      (dst ctx = DISCOVERY_IP ∧ dst_port ctx = DISCOVERY_PORT))
    (hreg : c.emulator_pid ≠ 0) (hother : pid ≠ c.emulator_pid) :
    redirect_connect4 (some c) pid ctx =
      ⟨1, ⟨ctx.user_family, ctx.protocol,
          bswap32 c.emulator_ip, bswap16 c.emulator_port⟩, some c,
        if c.debug ≠ 0 then [.redirecting c.emulator_ip c.emulator_port]
        else []⟩ := by
  unfold redirect_connect4
  rw [if_neg (by simp [hfam, hproto])]
  rw [if_neg (by rcases hdst with ⟨h1, h2⟩ | ⟨h1, h2⟩ <;> simp [h1, h2])]
  simp only [if_neg hreg, if_neg hother]

/-- The full effect of the discovery branch (redirect.c lines 64-71): store
the caller's PID in the map entry and return 0 (block), leaving the
attempt's fields untouched. -/
theorem discovery_branch_eq (c : Config) (pid : Nat) (ctx : BpfSockAddr)
    (hfam : ctx.user_family = AF_INET) (hproto : ctx.protocol = IPPROTO_TCP)
    (hip : dst ctx = DISCOVERY_IP) (hport : dst_port ctx = DISCOVERY_PORT)
    (hzero : c.emulator_pid = 0) :
    redirect_connect4 (some c) pid ctx =
      ⟨0, ctx, some ⟨pid, c.emulator_ip, c.emulator_port, c.debug⟩,
        if c.debug ≠ 0 then [.discoveredPid pid] else []⟩ := by
  unfold redirect_connect4
  rw [if_neg (by simp [hfam, hproto])]
  rw [if_neg (by simp [hip, hport])]
  simp only [if_pos hzero, if_pos (And.intro hip hport)]

/-- C1: for an IPv4 TCP attempt whose destination is METADATA
(169.254.169.254:80), when the config is present with
`emulator_pid = P ≠ 0` and the caller's PID `Q ≠ P`, the program returns 1
(the attempt proceeds) with the attempt's destination IP and port
overwritten in place by the record's `emulator_ip` and `emulator_port`,
and the config entry unchanged. -/
theorem metadata_attempt_redirected (c : Config) (pid : Nat) (ctx : BpfSockAddr)
    (hfam : ctx.user_family = AF_INET) (hproto : ctx.protocol = IPPROTO_TCP)
    (hip : dst ctx = METADATA_IP) (hport : dst_port ctx = METADATA_PORT)
    (hreg : c.emulator_pid ≠ 0) (hother : pid ≠ c.emulator_pid)
    (hipw : c.emulator_ip < 4294967296) (hportw : c.emulator_port < 65536) :
    (redirect_connect4 (some c) pid ctx).retval = 1 ∧
    dst (redirect_connect4 (some c) pid ctx).ctx = c.emulator_ip ∧
    dst_port (redirect_connect4 (some c) pid ctx).ctx = c.emulator_port ∧
    (redirect_connect4 (some c) pid ctx).ctx.user_ip4 = bswap32 c.emulator_ip ∧
    (redirect_connect4 (some c) pid ctx).ctx.user_port = bswap16 c.emulator_port ∧
    (redirect_connect4 (some c) pid ctx).conf = some c := by
  rw [redirect_branch_eq c pid ctx hfam hproto (Or.inl ⟨hip, hport⟩) hreg hother]
  refine ⟨rfl, ?_, ?_, rfl, rfl, rfl⟩
  · show bswap32 (bswap32 c.emulator_ip) = c.emulator_ip
    exact bswap32_inv _ hipw
  · show bswap16 (bswap16 c.emulator_port) = c.emulator_port
    exact bswap16_inv _ hportw

/-- Witness for C1 at a concrete input: config `{pid 42, ip 10.0.0.5,
port 8080, debug 0}`, caller PID 7, destination 169.254.169.254:80. -/
theorem metadata_attempt_redirected_witness :
    (redirect_connect4 (some ⟨42, 167772165, 8080, 0⟩) 7
        ⟨2, 6, 4272553641, 20480⟩).retval = 1 ∧
    dst (redirect_connect4 (some ⟨42, 167772165, 8080, 0⟩) 7
        ⟨2, 6, 4272553641, 20480⟩).ctx = 167772165 ∧
    dst_port (redirect_connect4 (some ⟨42, 167772165, 8080, 0⟩) 7
        ⟨2, 6, 4272553641, 20480⟩).ctx = 8080 ∧
    (redirect_connect4 (some ⟨42, 167772165, 8080, 0⟩) 7
        ⟨2, 6, 4272553641, 20480⟩).ctx.user_ip4 = bswap32 167772165 ∧
    (redirect_connect4 (some ⟨42, 167772165, 8080, 0⟩) 7
        ⟨2, 6, 4272553641, 20480⟩).ctx.user_port = bswap16 8080 ∧
    (redirect_connect4 (some ⟨42, 167772165, 8080, 0⟩) 7
        ⟨2, 6, 4272553641, 20480⟩).conf = some ⟨42, 167772165, 8080, 0⟩ :=
  metadata_attempt_redirected ⟨42, 167772165, 8080, 0⟩ 7 ⟨2, 6, 4272553641, 20480⟩
    (by decide) (by decide) (by decide) (by decide) (by decide) (by decide)
    (by decide) (by decide)

/-- C3: for an IPv4 TCP attempt whose destination is METADATA, when the
config is present with `emulator_pid = P ≠ 0` and the caller's PID equals
`P`, the program returns 1 (allow) and leaves the attempt and the config
entirely unchanged (self-exemption). -/
theorem emulator_self_exemption (c : Config) (ctx : BpfSockAddr)
    (hfam : ctx.user_family = AF_INET) (hproto : ctx.protocol = IPPROTO_TCP)
    (hip : dst ctx = METADATA_IP) (hport : dst_port ctx = METADATA_PORT)
    (hreg : c.emulator_pid ≠ 0) :
    (redirect_connect4 (some c) c.emulator_pid ctx).retval = 1 ∧
    (redirect_connect4 (some c) c.emulator_pid ctx).ctx = ctx ∧
    (redirect_connect4 (some c) c.emulator_pid ctx).conf = some c := by
  unfold redirect_connect4
  rw [if_neg (by simp [hfam, hproto])]
  rw [if_neg (by simp [hip, hport])]
  simp only [if_neg hreg, if_pos rfl]
  exact ⟨rfl, rfl, rfl⟩

/-- Witness for C3 at a concrete input: config `{pid 42, ip 10.0.0.5,
port 8080, debug 0}`, caller PID 42, destination 169.254.169.254:80. -/
theorem emulator_self_exemption_witness :
    (redirect_connect4 (some ⟨42, 167772165, 8080, 0⟩)
        (Config.emulator_pid ⟨42, 167772165, 8080, 0⟩)
        ⟨2, 6, 4272553641, 20480⟩).retval = 1 ∧
    (redirect_connect4 (some ⟨42, 167772165, 8080, 0⟩)
        (Config.emulator_pid ⟨42, 167772165, 8080, 0⟩)
        ⟨2, 6, 4272553641, 20480⟩).ctx = ⟨2, 6, 4272553641, 20480⟩ ∧
    (redirect_connect4 (some ⟨42, 167772165, 8080, 0⟩)
        (Config.emulator_pid ⟨42, 167772165, 8080, 0⟩)
        ⟨2, 6, 4272553641, 20480⟩).conf = some ⟨42, 167772165, 8080, 0⟩ :=
  emulator_self_exemption ⟨42, 167772165, 8080, 0⟩ ⟨2, 6, 4272553641, 20480⟩
    (by decide) (by decide) (by decide) (by decide) (by decide)

/-- C2: for an IPv4 TCP attempt whose destination is DISCOVERY
(169.254.196.245:12345), when the config is present with
`emulator_pid = 0`, the program stores the caller's PID in `emulator_pid`
and returns 0 (block), with the attempt's fields untouched; the resulting
map entry shows `emulator_pid = P`. -/
theorem discovery_registers_and_blocks (c : Config) (pid : Nat)
    (ctx : BpfSockAddr)
    (hfam : ctx.user_family = AF_INET) (hproto : ctx.protocol = IPPROTO_TCP)
    (hip : dst ctx = DISCOVERY_IP) (hport : dst_port ctx = DISCOVERY_PORT)
    (hzero : c.emulator_pid = 0) :
    (redirect_connect4 (some c) pid ctx).retval = 0 ∧
    (redirect_connect4 (some c) pid ctx).ctx = ctx ∧
    (redirect_connect4 (some c) pid ctx).conf =
      some ⟨pid, c.emulator_ip, c.emulator_port, c.debug⟩ := by
  rw [discovery_branch_eq c pid ctx hfam hproto hip hport hzero]
  exact ⟨rfl, rfl, rfl⟩

/-- Witness for C2 at a concrete input: config `{pid 0, ip 10.0.0.5,
port 8080, debug 0}`, caller PID 42, destination 169.254.196.245:12345. -/
theorem discovery_registers_and_blocks_witness :
    (redirect_connect4 (some ⟨0, 167772165, 8080, 0⟩) 42
        ⟨2, 6, 4123328169, 14640⟩).retval = 0 ∧
    (redirect_connect4 (some ⟨0, 167772165, 8080, 0⟩) 42
        ⟨2, 6, 4123328169, 14640⟩).ctx = ⟨2, 6, 4123328169, 14640⟩ ∧
    (redirect_connect4 (some ⟨0, 167772165, 8080, 0⟩) 42
        ⟨2, 6, 4123328169, 14640⟩).conf = some ⟨42, 167772165, 8080, 0⟩ :=
  discovery_registers_and_blocks ⟨0, 167772165, 8080, 0⟩ 42
    ⟨2, 6, 4123328169, 14640⟩
    (by decide) (by decide) (by decide) (by decide) (by decide)

/-- C9: after registration, a DISCOVERY attempt from a third party (IPv4
TCP, config present with `emulator_pid = P ≠ 0`, caller `Q ≠ P`) is
redirected exactly like a METADATA attempt: the program returns 1 with the
destination overwritten by `emulator_ip`/`emulator_port`, and produces the
very same result an otherwise-identical METADATA attempt produces. -/
theorem discovery_after_registration_redirected (c : Config) (pid : Nat)
    (ctx ctxm : BpfSockAddr)
    (hfam : ctx.user_family = AF_INET) (hproto : ctx.protocol = IPPROTO_TCP)
    (hip : dst ctx = DISCOVERY_IP) (hport : dst_port ctx = DISCOVERY_PORT)
    (hfamm : ctxm.user_family = AF_INET) (hprotom : ctxm.protocol = IPPROTO_TCP)
    (hipm : dst ctxm = METADATA_IP) (hportm : dst_port ctxm = METADATA_PORT)
    (hsame : ctxm.user_family = ctx.user_family ∧ ctxm.protocol = ctx.protocol)
    (hreg : c.emulator_pid ≠ 0) (hother : pid ≠ c.emulator_pid)
    (hipw : c.emulator_ip < 4294967296) (hportw : c.emulator_port < 65536) :
    (redirect_connect4 (some c) pid ctx).retval = 1 ∧
    dst (redirect_connect4 (some c) pid ctx).ctx = c.emulator_ip ∧
    dst_port (redirect_connect4 (some c) pid ctx).ctx = c.emulator_port ∧
    (redirect_connect4 (some c) pid ctx).conf = some c ∧
    redirect_connect4 (some c) pid ctx = redirect_connect4 (some c) pid ctxm := by
  rw [redirect_branch_eq c pid ctx hfam hproto (Or.inr ⟨hip, hport⟩) hreg hother]
  rw [redirect_branch_eq c pid ctxm hfamm hprotom (Or.inl ⟨hipm, hportm⟩) hreg
    hother]
  refine ⟨rfl, ?_, ?_, rfl, ?_⟩
  · show bswap32 (bswap32 c.emulator_ip) = c.emulator_ip
    exact bswap32_inv _ hipw
  · show bswap16 (bswap16 c.emulator_port) = c.emulator_port
    exact bswap16_inv _ hportw
  · rw [hsame.1, hsame.2]

/-- Witness for C9 at a concrete input: config `{pid 42, ip 10.0.0.5,
port 8080, debug 0}`, caller PID 7, destination 169.254.196.245:12345
(and the matching METADATA attempt 169.254.169.254:80). -/
theorem discovery_after_registration_redirected_witness :
    (redirect_connect4 (some ⟨42, 167772165, 8080, 0⟩) 7
        ⟨2, 6, 4123328169, 14640⟩).retval = 1 ∧
    dst (redirect_connect4 (some ⟨42, 167772165, 8080, 0⟩) 7
        ⟨2, 6, 4123328169, 14640⟩).ctx = 167772165 ∧
    dst_port (redirect_connect4 (some ⟨42, 167772165, 8080, 0⟩) 7
        ⟨2, 6, 4123328169, 14640⟩).ctx = 8080 ∧
    (redirect_connect4 (some ⟨42, 167772165, 8080, 0⟩) 7
        ⟨2, 6, 4123328169, 14640⟩).conf = some ⟨42, 167772165, 8080, 0⟩ ∧
    redirect_connect4 (some ⟨42, 167772165, 8080, 0⟩) 7
        ⟨2, 6, 4123328169, 14640⟩ =
      redirect_connect4 (some ⟨42, 167772165, 8080, 0⟩) 7
        ⟨2, 6, 4272553641, 20480⟩ :=
  discovery_after_registration_redirected ⟨42, 167772165, 8080, 0⟩ 7
    ⟨2, 6, 4123328169, 14640⟩ ⟨2, 6, 4272553641, 20480⟩
    (by decide) (by decide) (by decide) (by decide) (by decide) (by decide)
    (by decide) (by decide) (by decide) (by decide) (by decide)
    (by decide) (by decide)

/-- C5: any attempt that is not IPv4, or not TCP, or whose destination
matches neither METADATA nor DISCOVERY exactly, is returned 1 (allow)
with the attempt, the config entry and the log all untouched. -/
theorem uninteresting_attempts_allowed (conf0 : Option Config) (pid : Nat)
    (ctx : BpfSockAddr)
    (h : ctx.user_family ≠ AF_INET ∨ ctx.protocol ≠ IPPROTO_TCP ∨
      (¬(dst ctx = METADATA_IP ∧ dst_port ctx = METADATA_PORT) ∧
        ¬(dst ctx = DISCOVERY_IP ∧ dst_port ctx = DISCOVERY_PORT))) :
    redirect_connect4 conf0 pid ctx = ⟨1, ctx, conf0, []⟩ := by
  unfold redirect_connect4
  rcases h with h | h | h
  · rw [if_pos (Or.inl h)]
  · rw [if_pos (Or.inr h)]
  · by_cases hfp : ctx.user_family ≠ AF_INET ∨ ctx.protocol ≠ IPPROTO_TCP
    · rw [if_pos hfp]
    · rw [if_neg hfp, if_pos h]

/-- Witness for C5 at a concrete input: a UDP attempt (protocol 17) to
169.254.169.254:80 with the config present. -/
theorem uninteresting_attempts_allowed_witness :
    redirect_connect4 (some ⟨42, 167772165, 8080, 0⟩) 7
        ⟨2, 17, 4272553641, 20480⟩ =
      ⟨1, ⟨2, 17, 4272553641, 20480⟩, some ⟨42, 167772165, 8080, 0⟩, []⟩ :=
  uninteresting_attempts_allowed (some ⟨42, 167772165, 8080, 0⟩) 7
    ⟨2, 17, 4272553641, 20480⟩ (by decide)

/-- C6: both error conditions degrade to allow with a diagnostic: a missing
config entry on a METADATA or DISCOVERY attempt yields return value 1,
untouched attempt, and the "called without configuration" diagnostic; a
METADATA attempt while `emulator_pid = 0` yields return value 1, untouched
attempt, untouched config, and the "called before discovery" diagnostic. -/
theorem error_paths_fail_open (c : Config) (pid : Nat) (ctx : BpfSockAddr)
    (hfam : ctx.user_family = AF_INET) (hproto : ctx.protocol = IPPROTO_TCP) :
    (((dst ctx = METADATA_IP ∧ dst_port ctx = METADATA_PORT) ∨
        (dst ctx = DISCOVERY_IP ∧ dst_port ctx = DISCOVERY_PORT)) →
      redirect_connect4 none pid ctx = ⟨1, ctx, none, [.errNoConfig]⟩) ∧
    ((dst ctx = METADATA_IP ∧ dst_port ctx = METADATA_PORT) →
      c.emulator_pid = 0 →
      redirect_connect4 (some c) pid ctx =
        ⟨1, ctx, some c, [.errBeforeDiscovery]⟩) := by
  constructor
  · intro hdst
    unfold redirect_connect4
    rw [if_neg (by simp [hfam, hproto])]
    rw [if_neg (by rcases hdst with ⟨h1, h2⟩ | ⟨h1, h2⟩ <;> simp [h1, h2])]
  · intro hdst hzero
    unfold redirect_connect4
    rw [if_neg (by simp [hfam, hproto])]
    rw [if_neg (by simp [hdst.1, hdst.2])]
    simp only [if_pos hzero,
      if_neg (show ¬(dst ctx = DISCOVERY_IP ∧ dst_port ctx = DISCOVERY_PORT) by
        simp [hdst.1, METADATA_IP, DISCOVERY_IP])]

/-- Witness for C6 at a concrete input: caller PID 7, destination
169.254.169.254:80, with the config absent (first conjunct) and with a
config whose `emulator_pid` is 0 (second conjunct). -/
theorem error_paths_fail_open_witness :
    ((((dst ⟨2, 6, 4272553641, 20480⟩ = METADATA_IP ∧
          dst_port ⟨2, 6, 4272553641, 20480⟩ = METADATA_PORT) ∨
        (dst ⟨2, 6, 4272553641, 20480⟩ = DISCOVERY_IP ∧
          dst_port ⟨2, 6, 4272553641, 20480⟩ = DISCOVERY_PORT)) →
      redirect_connect4 none 7 ⟨2, 6, 4272553641, 20480⟩ =
        ⟨1, ⟨2, 6, 4272553641, 20480⟩, none, [.errNoConfig]⟩) ∧
    ((dst ⟨2, 6, 4272553641, 20480⟩ = METADATA_IP ∧
        dst_port ⟨2, 6, 4272553641, 20480⟩ = METADATA_PORT) →
      Config.emulator_pid ⟨0, 167772165, 8080, 0⟩ = 0 →
      redirect_connect4 (some ⟨0, 167772165, 8080, 0⟩) 7
          ⟨2, 6, 4272553641, 20480⟩ =
        ⟨1, ⟨2, 6, 4272553641, 20480⟩, some ⟨0, 167772165, 8080, 0⟩,
          [.errBeforeDiscovery]⟩)) ∧
    redirect_connect4 none 7 ⟨2, 6, 4272553641, 20480⟩ =
      ⟨1, ⟨2, 6, 4272553641, 20480⟩, none, [.errNoConfig]⟩ ∧
    redirect_connect4 (some ⟨0, 167772165, 8080, 0⟩) 7
        ⟨2, 6, 4272553641, 20480⟩ =
      ⟨1, ⟨2, 6, 4272553641, 20480⟩, some ⟨0, 167772165, 8080, 0⟩,
        [.errBeforeDiscovery]⟩ := by
  have h := error_paths_fail_open ⟨0, 167772165, 8080, 0⟩ 7
    ⟨2, 6, 4272553641, 20480⟩ (by decide) (by decide)
  exact ⟨h, h.1 (Or.inl (by decide)), h.2 (by decide) (by decide)⟩

/-- C7: the program returns 0 (block) exactly when the attempt is IPv4 TCP
to DISCOVERY and the config is present with `emulator_pid = 0`; in every
other case the return value is 1 (every failure path degrades to allow). -/
theorem block_iff_discovery_registration (conf0 : Option Config) (pid : Nat)
    (ctx : BpfSockAddr) :
    ((redirect_connect4 conf0 pid ctx).retval = 0 ↔
      (ctx.user_family = AF_INET ∧ ctx.protocol = IPPROTO_TCP ∧
        dst ctx = DISCOVERY_IP ∧ dst_port ctx = DISCOVERY_PORT ∧
        ∃ c, conf0 = some c ∧ c.emulator_pid = 0)) ∧
    ((redirect_connect4 conf0 pid ctx).retval = 0 ∨
      (redirect_connect4 conf0 pid ctx).retval = 1) := by
  rcases conf0 with _ | c
  · have hnone : (redirect_connect4 none pid ctx).retval = 1 := by
      unfold redirect_connect4
      split
      · rfl
      · split
        · rfl
        · rfl
    rw [hnone]
    simp
  · unfold redirect_connect4
    by_cases h1 : ctx.user_family ≠ AF_INET ∨ ctx.protocol ≠ IPPROTO_TCP <;>
      by_cases h2 : ¬(dst ctx = METADATA_IP ∧ dst_port ctx = METADATA_PORT) ∧
        ¬(dst ctx = DISCOVERY_IP ∧ dst_port ctx = DISCOVERY_PORT) <;>
      by_cases h3 : c.emulator_pid = 0 <;>
      by_cases h4 : dst ctx = DISCOVERY_IP ∧ dst_port ctx = DISCOVERY_PORT <;>
      by_cases h5 : pid = c.emulator_pid <;>
      simp_all [METADATA_IP, DISCOVERY_IP, METADATA_PORT, DISCOVERY_PORT] <;>
      tauto

/-- One invocation either leaves a present map entry untouched, or (only
when its `emulator_pid` is 0) replaces that field with the caller's PID. -/
theorem conf_step (c : Config) (pid : Nat) (ctx : BpfSockAddr) :
    (redirect_connect4 (some c) pid ctx).conf = some c ∨
    (c.emulator_pid = 0 ∧ (redirect_connect4 (some c) pid ctx).conf =
      some ⟨pid, c.emulator_ip, c.emulator_port, c.debug⟩) := by
  unfold redirect_connect4
  by_cases h1 : ctx.user_family ≠ AF_INET ∨ ctx.protocol ≠ IPPROTO_TCP <;>
    by_cases h2 : ¬(dst ctx = METADATA_IP ∧ dst_port ctx = METADATA_PORT) ∧
      ¬(dst ctx = DISCOVERY_IP ∧ dst_port ctx = DISCOVERY_PORT) <;>
    by_cases h3 : c.emulator_pid = 0 <;>
    by_cases h4 : dst ctx = DISCOVERY_IP ∧ dst_port ctx = DISCOVERY_PORT <;>
    by_cases h5 : pid = c.emulator_pid <;>
    simp_all [METADATA_IP, DISCOVERY_IP, METADATA_PORT, DISCOVERY_PORT]

/-- A registered map entry (`emulator_pid ≠ 0`) passes through any sequence
of invocations completely unchanged. -/
theorem runPids_registered (c : Config) (calls : List (Nat × BpfSockAddr))
    (h : c.emulator_pid ≠ 0) : runPids (some c) calls = some c := by
  induction calls with
  | nil => rfl
  | cons hd tl ih =>
    have hstep : runPids (some c) (hd :: tl)
        = runPids ((redirect_connect4 (some c) hd.1 hd.2).conf) tl := rfl
    rcases conf_step c hd.1 hd.2 with hs | ⟨h0, _⟩
    · rw [hstep, hs]
      exact ih
    · exact absurd h0 h

/-- Fields `emulator_ip`, `emulator_port` and `debug` pass through any sequence of
invocations unchanged, and the entry stays present. -/
theorem runPids_fields (calls : List (Nat × BpfSockAddr)) (c : Config) :
    ∃ c', runPids (some c) calls = some c' ∧
      c'.emulator_ip = c.emulator_ip ∧ c'.emulator_port = c.emulator_port ∧
      c'.debug = c.debug := by
  induction calls generalizing c with
  | nil => exact ⟨c, rfl, rfl, rfl, rfl⟩
  | cons hd tl ih =>
    have hstep : runPids (some c) (hd :: tl)
        = runPids ((redirect_connect4 (some c) hd.1 hd.2).conf) tl := rfl
    rcases conf_step c hd.1 hd.2 with hs | ⟨_, hs⟩
    · rw [hstep, hs]
      exact ih c
    · rw [hstep, hs]
      obtain ⟨c', h1, h2, h3, h4⟩ := ih ⟨hd.1, c.emulator_ip, c.emulator_port,
        c.debug⟩
      exact ⟨c', h1, h2, h3, h4⟩

/-- C4: `emulator_pid` is a one-shot latch: over any sequence of
invocations, once the map entry holds a nonzero `emulator_pid` it is never
written again, and `emulator_ip`, `emulator_port` (and `debug`) are never
mutated by any invocation. -/
theorem emulator_pid_latch (c : Config) (calls : List (Nat × BpfSockAddr)) :
    (c.emulator_pid ≠ 0 → runPids (some c) calls = some c) ∧
    (∃ c', runPids (some c) calls = some c' ∧
      c'.emulator_ip = c.emulator_ip ∧ c'.emulator_port = c.emulator_port ∧
      c'.debug = c.debug) :=
  ⟨runPids_registered c calls, runPids_fields calls c⟩

/-- Witness for C4 at a concrete input: a registered config `{pid 42,
ip 10.0.0.5, port 8080, debug 0}` survives a DISCOVERY attempt from PID 7
followed by a METADATA attempt from PID 9 unchanged. -/
theorem emulator_pid_latch_witness :
    runPids (some ⟨42, 167772165, 8080, 0⟩)
        [⟨7, ⟨2, 6, 4123328169, 14640⟩⟩, ⟨9, ⟨2, 6, 4272553641, 20480⟩⟩]
      = some ⟨42, 167772165, 8080, 0⟩ :=
  (emulator_pid_latch ⟨42, 167772165, 8080, 0⟩
    [⟨7, ⟨2, 6, 4123328169, 14640⟩⟩, ⟨9, ⟨2, 6, 4272553641, 20480⟩⟩]).1
    (by decide)

/-- C10: a DISCOVERY attempt from caller PID 0 while `emulator_pid = 0` is
blocked but writes 0, so the entry stays unregistered, and a later
DISCOVERY attempt from PID `P` still registers `P`. -/
theorem zero_pid_discovery_not_terminal (c : Config) (ctx ctx2 : BpfSockAddr)
    (P : Nat) (hzero : c.emulator_pid = 0)
    (hfam : ctx.user_family = AF_INET) (hproto : ctx.protocol = IPPROTO_TCP)
    (hip : dst ctx = DISCOVERY_IP) (hport : dst_port ctx = DISCOVERY_PORT)
    (hfam2 : ctx2.user_family = AF_INET) (hproto2 : ctx2.protocol = IPPROTO_TCP)
    (hip2 : dst ctx2 = DISCOVERY_IP) (hport2 : dst_port ctx2 = DISCOVERY_PORT) :
    (redirect_connect4 (some c) 0 ctx).retval = 0 ∧
    (redirect_connect4 (some c) 0 ctx).conf = some c ∧
    (redirect_connect4 (redirect_connect4 (some c) 0 ctx).conf P ctx2).retval
      = 0 ∧
    (redirect_connect4 (redirect_connect4 (some c) 0 ctx).conf P ctx2).conf
      = some ⟨P, c.emulator_ip, c.emulator_port, c.debug⟩ := by
  obtain ⟨cp, cip, cport, cdbg⟩ := c
  simp only at hzero
  subst hzero
  rw [discovery_branch_eq ⟨0, cip, cport, cdbg⟩ 0 ctx hfam hproto hip hport rfl]
  rw [discovery_branch_eq ⟨0, cip, cport, cdbg⟩ P ctx2 hfam2 hproto2 hip2 hport2
    rfl]
  exact ⟨rfl, rfl, rfl, rfl⟩

/-- Witness for C10 at a concrete input: config `{pid 0, ip 10.0.0.5,
port 8080, debug 0}`, a DISCOVERY attempt from PID 0, then one from
PID 9. -/
theorem zero_pid_discovery_not_terminal_witness :
    (redirect_connect4 (some ⟨0, 167772165, 8080, 0⟩) 0
        ⟨2, 6, 4123328169, 14640⟩).retval = 0 ∧
    (redirect_connect4 (some ⟨0, 167772165, 8080, 0⟩) 0
        ⟨2, 6, 4123328169, 14640⟩).conf = some ⟨0, 167772165, 8080, 0⟩ ∧
    (redirect_connect4 (redirect_connect4 (some ⟨0, 167772165, 8080, 0⟩) 0
        ⟨2, 6, 4123328169, 14640⟩).conf 9 ⟨2, 6, 4123328169, 14640⟩).retval
      = 0 ∧
    (redirect_connect4 (redirect_connect4 (some ⟨0, 167772165, 8080, 0⟩) 0
        ⟨2, 6, 4123328169, 14640⟩).conf 9 ⟨2, 6, 4123328169, 14640⟩).conf
      = some ⟨9, 167772165, 8080, 0⟩ :=
  zero_pid_discovery_not_terminal ⟨0, 167772165, 8080, 0⟩
    ⟨2, 6, 4123328169, 14640⟩ ⟨2, 6, 4123328169, 14640⟩ 9
    (by decide) (by decide) (by decide) (by decide) (by decide)
    (by decide) (by decide) (by decide) (by decide)

end GkeMeta
